import Mathlib

/-!
Shallow embedding of `src/cellEditors/ComboBox.js` (fin-hypergrid combo-box
cell editor).  Pure JavaScript functions become Lean functions; the editor's
mutable fields and the DOM nodes it touches become an explicit `ComboState`
record that every operation threads.  Code that can throw (`TypeError` on
`undefined` property access) is embedded with `Except String`.

Two helper modules of the repository (`lib/queueless`, `lib/elfor`) and the
superclass `Simple.js` are not part of the source slice; the definitions that
stand in for them are marked `Modelled from the spec:` in their doc comments.
Everything else is translated from `ComboBox.js` itself.
-/

/-- JS object property read (`o[k]`), for the plain objects the editor keeps
(`menuModes`, `menuModesSource`): association-list lookup on the first
matching key (JS object keys are unique). -/
def objGet {κ α : Type} [DecidableEq κ] : List (κ × α) → κ → Option α
  | [], _ => none
  | p :: rest, k => if p.1 = k then some p.2 else objGet rest k

/-- JS object property write (`o[k] = v`): overwrite the existing entry in
place, else append a new one (JS insertion-order semantics). -/
def objSet {κ α : Type} [DecidableEq κ] : List (κ × α) → κ → α → List (κ × α)
  | [], k, v => [(k, v)]
  | p :: rest, k, v => if p.1 = k then (k, v) :: rest else p :: objSet rest k v

/-- JS `className.indexOf(pre) === 0` (line 137). -/
def strStartsWith (s pre : String) : Bool := List.isPrefixOf pre.data s.data

/-- JS `String#substr(n)` (line 139). -/
def strDrop (s : String) (n : Nat) : String := String.mk (List.drop n s.data)

/-- A child element of the `<select>` drop-down: an `<option>` or an
`<optgroup>`.  `displayNone` is true when `el.style.display === 'none'`
(the only non-null value this code ever assigns, line 175); false stands for
the null / inherited display (line 173). -/
structure El where
  isOptgroup : Bool
  className : Option String
  label : List Char
  displayNone : Bool
deriving DecidableEq

/-- DOM selector matching as this widget uses it.  `some sel` is a mode's own
selector, a single-class selector such as `.submenu-name` (showEditor creates
the optgroup with exactly that class, line 92); `none` is the fallback
selector string `:scope>option,:scope>optgroup:not([class])` of line 180,
which matches the plain options and the class-less optgroups. -/
def selMatches : Option String → El → Bool
  | some sel, el => el.className == some (strDrop sel 1)
  | none, el => !el.isOptgroup || el.className == none

/-- Modelled from the spec: `lib/elfor` (required by ComboBox.js, not in this
source slice).  Its one use is `elfor.each(selector, iteratee, this.dropdown)`
with an iteratee that assigns `el.style.display` (lines 179-183); per the
claim wording this acts on "the elements matched by the mode's selector", so
it is modelled as a map that sets the display of every matched element. -/
def setDisplayAll (sel : Option String) (d : Bool) (els : List El) : List El :=
  els.map (fun el => if selMatches sel el then { el with displayNone := d } else el)

/-- Source `document.querySelector` returns the first match and line 167 mutates that
element's label in place: replace the first matched element. -/
def updateFirst (p : El → Bool) (f : El → El) : List El → List El
  | [] => []
  | el :: rest => if p el then f el :: rest else el :: updateFirst p f rest

/-- The display states of the elements a selector matches, in document
order: the "option-group visibility" the spec talks about. -/
def matchedDisplays (sel : Option String) (els : List El) : List Bool :=
  (els.filter (fun el => selMatches sel el)).map (fun el => el.displayNone)

/-- One decimal digit character. -/
def digitChar : Nat → Char
  | 0 => '0'
  | 1 => '1'
  | 2 => '2'
  | 3 => '3'
  | 4 => '4'
  | 5 => '5'
  | 6 => '6'
  | 7 => '7'
  | 8 => '8'
  | _ => '9'

/-- Fuel-driven decimal printer (structural recursion so the kernel can
evaluate it). -/
def natToDigitsAux : Nat → Nat → List Char → List Char
  | 0, _, acc => acc
  | fuel + 1, n, acc =>
      if n < 10 then digitChar n :: acc
      else natToDigitsAux fuel (n / 10) (digitChar (n % 10) :: acc)

/-- JS number-to-string conversion (base 10) used by the string concatenation
of line 168. -/
def natToDigits (n : Nat) : List Char := natToDigitsAux (n + 1) n []

/-- The count suffix appended at line 168: `' (' + sum + ')'`. -/
def countSuffix (sum : Nat) : List Char := ' ' :: '(' :: (natToDigits sum ++ [')'])

/-- The regex replace of line 167, `label.replace(/ \(\d+\)$/, '')`, examined
from the end of the string: the reversed input must start with a close paren,
one or more digits, an open paren and a space; the rest (reversed) is the
stripped label.  Because the match is anchored at the end of the string this
is exactly the regex's semantics. -/
def stripCountSuffixRev : List Char → Option (List Char)
  | [] => none
  | c :: rest =>
      if c = ')' ∧ (rest.takeWhile Char.isDigit).isEmpty = false then
        match rest.dropWhile Char.isDigit with
        | c2 :: c3 :: rest2 => if c2 = '(' ∧ c3 = ' ' then some rest2 else none
        | _ => none
      else none

/-- Source `label.replace(/ \(\d+\)$/, '')` (line 167): remove one trailing count
suffix if present, else leave the label alone. -/
def stripCountSuffix (l : List Char) : List Char :=
  match stripCountSuffixRev l.reverse with
  | some r => r.reverse
  | none => l

/-- Lines 167-168 as one label transformer: strip the old sum, append the
new one. -/
def relabel (l : List Char) (sum : Nat) : List Char := stripCountSuffix l ++ countSuffix sum

/-- A mode as configured by the embedding application (an external plug-in
per the spec).  `appendOptions` is a grid-supplied callback; only its return
value (the sum of line 164) is observable here, so it is abstracted to the
`appendOptionsSum` it returns. -/
structure Mode where
  name : String
  selector : Option String
  appendOptionsSum : Nat
deriving DecidableEq

/-- The `e.target` of a click in the control area (lines 131-134). -/
structure ClickTarget where
  tagName : String
  classList : List String
deriving DecidableEq

/-- The mutable state of one ComboBox editor instance together with the DOM
nodes it owns (`this.options`, `this.dropdown`, `this.input`, the control
area) and the transition lock returned by `onTransitionEnd`. -/
structure ComboState where
  /-- the lock: a slide transition is in flight (modelled from the spec) -/
  transitioning : Bool
  /-- a toggle was requested mid-transition and is deferred (modelled from
  the spec) -/
  pendingToggle : Bool
  /-- slideUp scheduled `el.style.visibility = 'hidden'` for transition end
  (lines 226-228) -/
  hideOnTransitionEnd : Bool
  /-- Source `this.options.style.visibility === 'visible'` (computed style the
  drop-down inherits, line 192) -/
  optionsVisible : Bool
  /-- Source `this.options.style.height` in pixels -/
  optionsHeight : Nat
  /-- Source `this.dropdown.size` -/
  dropdownSize : Nat
  /-- children of the `<select>` drop-down -/
  dropdownEls : List El
  /-- Source `this.dropdown.value` (the chosen option) -/
  dropdownValue : List Char
  /-- Source `this.input.value` -/
  inputValue : List Char
  /-- Source `this.input.selectionStart` -/
  inputSelectionStart : Nat
  /-- Source `this.input.selectionEnd` -/
  inputSelectionEnd : Nat
  /-- Source `this.selectionStart` saved by slideDown (line 199) -/
  savedSelectionStart : Nat
  /-- Source `this.selectionEnd` saved by slideDown (line 200) -/
  savedSelectionEnd : Nat
  /-- the `mousedown` listener slideDown adds to `this.input` (line 212) is
  currently registered -/
  inputMousedownListener : Bool
  /-- the `click` listener showEditor adds to `this.controls` (line 77) is
  currently registered -/
  controlsClickListener : Bool
  /-- Source `this.modes` -/
  modes : List Mode
  /-- Source `this.menuModes` -/
  menuModes : List (String × Nat)
  /-- Source `this.menuModesSource` -/
  menuModesSource : List (String × Nat)
  /-- presence of the css class `active` on each toggle control, keyed by the
  control's class list (line 153) -/
  ctrlActive : List (List String × Bool)
  /-- Source `this.el.style.cursor === 'progress'` (lines 158-160; the 333 ms reset
  timer is outside the model) -/
  cursorProgress : Bool
deriving DecidableEq

/-- Modelled from the spec: querying the `lib/queueless` transition lock
(`this.transit()` with no argument, line 189).  Per the spec a toggle
requested while a transition is in flight is deferred until the transition
completes and exactly one deferred toggle is honored, so a query during a
transition reports true and records the deferred request. -/
def transitQuery (s : ComboState) : Bool × ComboState :=
  if s.transitioning then (true, { s with pendingToggle := true }) else (false, s)

/-- Modelled from the spec: arming the `lib/queueless` transition lock
(`this.transit(null)` at line 215, `this.transit(fn)` at line 226): the
transition is now in flight, with an optional completion action. -/
def transitBegin (s : ComboState) (hide : Bool) : ComboState :=
  { s with transitioning := true, hideOnTransitionEnd := hide }

/-- Source `slideDown` (lines 197-216): save the text selection, show the options
panel, start the slide-down effect, listen for clicks in the text box, arm
the transition lock. -/
def slideDown (s : ComboState) : ComboState :=
  transitBegin
    { s with
      savedSelectionStart := s.inputSelectionStart,
      savedSelectionEnd := s.inputSelectionEnd,
      optionsVisible := true,
      optionsHeight := 2 + 15 + s.dropdownSize * 15 + 2,
      inputMousedownListener := true }
    false

/-- Source `slideUp` (lines 218-229): stop listening to input clicks, start the
slide-up effect, schedule the hide for transition end. -/
def slideUp (s : ComboState) : ComboState :=
  transitBegin { s with inputMousedownListener := false, optionsHeight := 0 } true

/-- Source `toggleDropDown` (lines 188-195): if a transition is in flight the
request is (per the spec-modelled lock) deferred; otherwise dispatch through
`stateToActionMap` on the computed visibility (lines 126-129). -/
def toggleDropDown (s : ComboState) : ComboState :=
  let q := transitQuery s
  if q.1 then q.2
  else if q.2.optionsVisible then slideUp q.2 else slideDown q.2

/-- The state changes of a completed CSS transition, before any deferred
toggle is honored: clear the lock and run the completion action slideUp may
have scheduled (hide the options panel). -/
def transitComplete (s : ComboState) : ComboState :=
  if s.hideOnTransitionEnd then
    { s with transitioning := false, optionsVisible := false, hideOnTransitionEnd := false }
  else { s with transitioning := false }

/-- Modelled from the spec: the `transitionend` DOM event reaching the
`lib/queueless` lock.  It completes the in-flight transition and honors at
most one deferred toggle ("exactly one deferred toggle is honored"). -/
def transitionEnd (s : ComboState) : ComboState :=
  if s.transitioning then
    let s1 := transitComplete s
    if s1.pendingToggle then toggleDropDown { s1 with pendingToggle := false } else s1
  else s

/-- Source `HTMLInputElement.setRangeText(repl, a, b, 'end')` per the HTML standard:
clamp the range to the value, splice the replacement over it and put both
selection ends after the inserted text.  Returns the new value and the new
selection position. -/
def setRangeTextEnd (value repl : List Char) (a b : Nat) : List Char × Nat :=
  (value.take (min a value.length) ++ repl ++ value.drop (min b value.length),
   min a value.length + repl.length)

/-- Source `insertText` (lines 231-238): insert the drop-down's value over the
selection saved when the drop-down slid open, then close the drop-down. -/
def insertText (s : ComboState) : ComboState :=
  let r := setRangeTextEnd s.inputValue s.dropdownValue s.savedSelectionStart s.savedSelectionEnd
  toggleDropDown { s with inputValue := r.1, inputSelectionStart := r.2, inputSelectionEnd := r.2 }

/-- Modelled from the spec: `Simple.prototype.hideEditor`, to which
ComboBox's `hideEditor` (lines 107-110) delegates; the superclass is not in
this source slice.  Per the spec, "closing the editor while a mode drop-down
is open releases all added listeners (no leaked handlers)": both listeners
added while the editor was open are removed. -/
def simpleHideEditor (s : ComboState) : ComboState :=
  { s with inputMousedownListener := false, controlsClickListener := false }

/-- Source `hideEditor` (lines 107-110): nothing of its own (the comment notes where
`menuModes` persistence would go), then the superclass teardown. -/
def hideEditor (s : ComboState) : ComboState := simpleHideEditor s

/-- The proxy-building loop of `showEditor` (lines 68-74): copy into a fresh
object the entries of `menuModesSource` whose keys are mode names. -/
def buildProxy (modes : List Mode) (src : List (String × Nat)) : List (String × Nat) :=
  modes.foldl
    (fun acc mode =>
      match objGet src mode.name with
      | some v => objSet acc mode.name v
      | none => acc)
    []

/-- The opening of `showEditor` (lines 64-77): rebuild `this.menuModes` from
the source and wire the control-area click listener. -/
def showEditorBuildMenuModes (s : ComboState) : ComboState :=
  { s with
    menuModes := buildProxy s.modes s.menuModesSource,
    controlsClickListener := true }

/-- Source `var TOGGLE_MODE_PREFIX` of line 18. -/
def TOGGLE_MODE_PFX : String := "toggle-mode-"

/-- Source `setModeIconAndOptgroup` (lines 148-186).  Looks the mode up in
`this.modes`, sets the icon's `active` class, and either rebuilds the mode's
optgroup (progress cursor, `appendOptions`, count-suffix relabel) or marks it
for hiding, then shows/hides the matched elements.  Accessing `.selector`
(line 162 or 180) or `.label` (line 167) on an undefined mode or a null
querySelector result throws a `TypeError`. -/
def setModeIconAndOptgroup (s : ComboState) (ctrl : List String) (name : String)
    (state : Nat) : Except String ComboState :=
  let mode? := s.modes.find? (fun m => m.name == name)
  let s1 : ComboState := { s with ctrlActive := objSet s.ctrlActive ctrl (state != 0) }
  if state = 0 then
    match mode? with
    | none => Except.error ("TypeError: mode is undefined")
    | some mode =>
        Except.ok { s1 with dropdownEls := setDisplayAll mode.selector true s1.dropdownEls }
  else
    let s2 : ComboState := { s1 with cursorProgress := true }
    match mode? with
    | none => Except.error ("TypeError: mode is undefined")
    | some mode =>
        match mode.selector with
        | some sel =>
            match s2.dropdownEls.find? (fun el => selMatches (some sel) el) with
            | none => Except.error ("TypeError: optgroup is null")
            | some _ =>
                let els1 := updateFirst (fun el => selMatches (some sel) el)
                  (fun el => { el with label := relabel el.label mode.appendOptionsSum })
                  s2.dropdownEls
                Except.ok { s2 with dropdownEls := setDisplayAll (some sel) false els1 }
        | none =>
            Except.ok { s2 with dropdownEls := setDisplayAll none false s2.dropdownEls }

/-- Source `onModeIconClick` (lines 131-146): only SPAN targets are handled; the
mode name is extracted from the first class beginning with the toggle-mode
marker (calling `.substr` on an undefined find result throws), the mode's
state bit is xor-flipped in `menuModes`, and the icon and optgroup are
updated. -/
def onModeIconClick (s : ComboState) (t : ClickTarget) : Except String ComboState :=
  if t.tagName = "SPAN" then
    match t.classList.find? (fun c => strStartsWith c TOGGLE_MODE_PFX) with
    | none => Except.error ("TypeError: modeClassName is undefined")
    | some modeClassName =>
        let modeName := strDrop modeClassName TOGGLE_MODE_PFX.length
        let modeState := (objGet s.menuModes modeName).getD 0 ^^^ 1
        setModeIconAndOptgroup { s with menuModes := objSet s.menuModes modeName modeState }
          t.classList modeName modeState
  else Except.ok s

/-- The observable effects of the `keyup` handler, in order. -/
inductive KeyupEffect
  | superKeyup
  | saveEditorValue
  | moveEditor
deriving DecidableEq

/-- Source `keyup` (lines 112-123): with an event present, always the superclass
handling; then, only on a filter row with `filteringMode === 'immediate'`,
commit the editor value through the grid and move the editor.  The grid
queries (`isFilterRow` on the editor's row, `resolveProperty`) are the
boundary surface and enter as parameters. -/
def keyup (eventPresent isFilterRowY : Bool) (filteringMode : String) : List KeyupEffect :=
  if eventPresent then
    KeyupEffect.superKeyup ::
      (if isFilterRowY then
        (if filteringMode = "immediate" then
          [KeyupEffect.saveEditorValue, KeyupEffect.moveEditor]
        else [])
      else [])
  else []

/-- A small concrete editor state used by the evaluation witnesses: one mode
named alpha whose optgroup carries the class submenu-alpha, plus one plain
option element; the drop-down is closed and idle. -/
def baseState : ComboState :=
  { transitioning := false
    pendingToggle := false
    hideOnTransitionEnd := false
    optionsVisible := false
    optionsHeight := 0
    dropdownSize := 12
    dropdownEls :=
      [ { isOptgroup := true, className := some ("submenu-alpha"),
          label := ['L', 'i', 's', 't'], displayNone := true },
        { isOptgroup := false, className := none, label := [], displayNone := false } ]
    dropdownValue := ['V', 'a', 'l']
    inputValue := ['a', 'b', 'c', 'd', 'e']
    inputSelectionStart := 1
    inputSelectionEnd := 3
    savedSelectionStart := 1
    savedSelectionEnd := 3
    inputMousedownListener := false
    controlsClickListener := true
    modes := [ { name := "alpha", selector := some (".submenu-alpha"), appendOptionsSum := 7 } ]
    menuModes := [("alpha", 0)]
    menuModesSource := [("alpha", 0), ("beta", 1)]
    ctrlActive := []
    cursorProgress := false }

/-- The control-area click target for the alpha mode of `baseState`. -/
def clickAlpha : ClickTarget := { tagName := "SPAN", classList := ["toggle-mode-alpha"] }

/-- A concrete state with the drop-down open and the slide-down mousedown
listener registered. -/
def openState : ComboState :=
  { baseState with optionsVisible := true, inputMousedownListener := true }

/-! ## Helper lemmas -/

theorem objGet_objSet {κ α : Type} [DecidableEq κ] (o : List (κ × α)) (k k2 : κ) (v : α) :
    objGet (objSet o k v) k2 = if k = k2 then some v else objGet o k2 := by
  induction o with
  | nil =>
      by_cases h : k = k2 <;> simp [objGet, objSet, h]
  | cons p rest ih =>
      simp only [objSet]
      by_cases hp : p.1 = k
      · rw [if_pos hp]
        by_cases h : k = k2
        · simp [objGet, h]
        · have hpk2 : ¬ p.1 = k2 := by rw [hp]; exact h
          simp [objGet, h, hpk2]
      · rw [if_neg hp]
        by_cases hpk2 : p.1 = k2
        · have h : ¬ k = k2 := fun hh => hp (hpk2.trans hh.symm)
          simp [objGet, hpk2, h]
        · simp [objGet, hpk2, ih]

theorem selMatches_displayNone (sel : Option String) (el : El) (d : Bool) :
    selMatches sel { el with displayNone := d } = selMatches sel el := by
  cases sel <;> rfl

theorem selMatches_label (sel : Option String) (el : El) (l : List Char) :
    selMatches sel { el with label := l } = selMatches sel el := by
  cases sel <;> rfl

theorem find?_map_invariant (p : El → Bool) (g : El → El)
    (h : ∀ el, p (g el) = p el) (els : List El) :
    (els.map g).find? p = (els.find? p).map g := by
  induction els with
  | nil => rfl
  | cons el rest ih =>
      by_cases hel : p el = true
      · rw [List.map_cons, List.find?_cons_of_pos _ ((h el).trans hel),
          List.find?_cons_of_pos _ hel, Option.map_some']
      · have hel2 : ¬ p (g el) = true := by rw [h el]; exact hel
        rw [List.map_cons, List.find?_cons_of_neg _ hel2, List.find?_cons_of_neg _ hel, ih]

theorem find?_setDisplayAll (sel2 sel : Option String) (d : Bool) (els : List El) :
    (setDisplayAll sel d els).find? (fun el => selMatches sel2 el)
      = (els.find? (fun el => selMatches sel2 el)).map
          (fun el => if selMatches sel el then { el with displayNone := d } else el) := by
  apply find?_map_invariant
  intro el
  by_cases h : selMatches sel el = true <;> simp [h, selMatches_displayNone]

theorem find?_updateFirst (p : El → Bool) (f : El → El)
    (h : ∀ el, p (f el) = p el) (els : List El) :
    (updateFirst p f els).find? p = (els.find? p).map f := by
  induction els with
  | nil => rfl
  | cons el rest ih =>
      by_cases hel : p el = true
      · rw [updateFirst, if_pos hel, List.find?_cons_of_pos _ ((h el).trans hel),
          List.find?_cons_of_pos _ hel, Option.map_some']
      · rw [updateFirst, if_neg hel, List.find?_cons_of_neg _ hel,
          List.find?_cons_of_neg _ hel, ih]

theorem matchedDisplays_cons (sel : Option String) (el : El) (rest : List El) :
    matchedDisplays sel (el :: rest)
      = if selMatches sel el then el.displayNone :: matchedDisplays sel rest
        else matchedDisplays sel rest := by
  by_cases h : selMatches sel el = true <;> simp [matchedDisplays, List.filter_cons, h]

theorem matchedDisplays_setDisplayAll (sel : Option String) (d : Bool) (els : List El) :
    matchedDisplays sel (setDisplayAll sel d els)
      = List.replicate (matchedDisplays sel els).length d := by
  induction els with
  | nil => rfl
  | cons el rest ih =>
      simp only [setDisplayAll, List.map_cons] at ih ⊢
      by_cases h : selMatches sel el = true
      · simp [matchedDisplays_cons, selMatches_displayNone, h, ih, List.replicate_succ]
      · simp [matchedDisplays_cons, selMatches_displayNone, h, ih]

theorem matchedDisplays_updateFirst (sel : Option String) (p : El → Bool) (f : El → El)
    (h1 : ∀ el, selMatches sel (f el) = selMatches sel el)
    (h2 : ∀ el, (f el).displayNone = el.displayNone) (els : List El) :
    matchedDisplays sel (updateFirst p f els) = matchedDisplays sel els := by
  induction els with
  | nil => rfl
  | cons el rest ih =>
      by_cases hel : p el = true
      · rw [updateFirst, if_pos hel, matchedDisplays_cons, matchedDisplays_cons, h1, h2]
      · rw [updateFirst, if_neg hel, matchedDisplays_cons, matchedDisplays_cons, ih]

theorem digitChar_isDigit (d : Nat) : (digitChar d).isDigit = true := by
  unfold digitChar
  split <;> decide

theorem natToDigitsAux_spec (fuel n : Nat) (acc : List Char) :
    ∃ ds, natToDigitsAux fuel n acc = ds ++ acc
      ∧ (fuel ≠ 0 → ds ≠ [])
      ∧ (∀ c ∈ ds, c.isDigit = true) := by
  induction fuel generalizing n acc with
  | zero => exact ⟨[], rfl, fun h => absurd rfl h, by simp⟩
  | succ fuel ih =>
      by_cases h : n < 10
      · refine ⟨[digitChar n], ?_, fun _ => by simp, ?_⟩
        · simp [natToDigitsAux, h]
        · intro c hc
          rw [List.mem_singleton] at hc
          rw [hc]
          exact digitChar_isDigit n
      · obtain ⟨ds, hds, _, hdig⟩ := ih (n / 10) (digitChar (n % 10) :: acc)
        refine ⟨ds ++ [digitChar (n % 10)], ?_, fun _ => by simp, ?_⟩
        · simp [natToDigitsAux, h, hds]
        · intro c hc
          rw [List.mem_append, List.mem_singleton] at hc
          cases hc with
          | inl hc => exact hdig c hc
          | inr hc => rw [hc]; exact digitChar_isDigit (n % 10)

theorem natToDigits_ne_nil (n : Nat) : natToDigits n ≠ [] := by
  obtain ⟨ds, hds, hne, _⟩ := natToDigitsAux_spec (n + 1) n []
  rw [natToDigits, hds, List.append_nil]
  exact hne (Nat.succ_ne_zero n)

theorem natToDigits_all_digits (n : Nat) : ∀ c ∈ natToDigits n, c.isDigit = true := by
  obtain ⟨ds, hds, _, hdig⟩ := natToDigitsAux_spec (n + 1) n []
  rw [natToDigits, hds, List.append_nil]
  exact hdig

theorem takeWhile_digits_append (xs zs : List Char) (h : ∀ c ∈ xs, c.isDigit = true) :
    List.takeWhile Char.isDigit (xs ++ '(' :: zs) = xs := by
  induction xs with
  | nil => simp [List.takeWhile_cons]
  | cons c cs ih =>
      have hc : c.isDigit = true := h c (List.mem_cons_self c cs)
      have hcs : ∀ x ∈ cs, x.isDigit = true := fun x hx => h x (List.mem_cons_of_mem c hx)
      simp [List.takeWhile_cons, hc, ih hcs]

theorem dropWhile_digits_append (xs zs : List Char) (h : ∀ c ∈ xs, c.isDigit = true) :
    List.dropWhile Char.isDigit (xs ++ '(' :: zs) = '(' :: zs := by
  induction xs with
  | nil => simp [List.dropWhile_cons]
  | cons c cs ih =>
      have hc : c.isDigit = true := h c (List.mem_cons_self c cs)
      have hcs : ∀ x ∈ cs, x.isDigit = true := fun x hx => h x (List.mem_cons_of_mem c hx)
      simp [List.dropWhile_cons, hc, ih hcs]

theorem stripCountSuffix_append_suffix (l : List Char) (n : Nat) :
    stripCountSuffix (l ++ countSuffix n) = l := by
  have hdig : ∀ c ∈ (natToDigits n).reverse, c.isDigit = true := by
    intro c hc
    exact natToDigits_all_digits n c (List.mem_reverse.mp hc)
  have hrev : (l ++ countSuffix n).reverse
      = ')' :: ((natToDigits n).reverse ++ '(' :: ' ' :: l.reverse) := by
    simp [countSuffix, List.reverse_append]
  rw [stripCountSuffix, hrev, stripCountSuffixRev]
  rw [takeWhile_digits_append _ _ hdig, dropWhile_digits_append _ _ hdig]
  have hne : ((natToDigits n).reverse).isEmpty = false := by
    rw [List.isEmpty_eq_false_iff_exists_mem]
    obtain ⟨c, hc⟩ := List.exists_mem_of_ne_nil _ (natToDigits_ne_nil n)
    exact ⟨c, List.mem_reverse.mpr hc⟩
  simp [hne]

theorem relabel_relabel (l : List Char) (n1 n2 : Nat) :
    relabel (relabel l n1) n2 = relabel l n2 := by
  rw [relabel, relabel, relabel, stripCountSuffix_append_suffix]

theorem stripCountSuffix_relabel (l : List Char) (n : Nat) :
    stripCountSuffix (relabel l n) = stripCountSuffix l := by
  rw [relabel, stripCountSuffix_append_suffix]

theorem setMode_disable (s : ComboState) (ctrl : List String) (name : String) (mode : Mode)
    (hm : s.modes.find? (fun m => m.name == name) = some mode) :
    setModeIconAndOptgroup s ctrl name 0
      = Except.ok { s with
          ctrlActive := objSet s.ctrlActive ctrl false,
          dropdownEls := setDisplayAll mode.selector true s.dropdownEls } := by
  simp [setModeIconAndOptgroup, hm]

theorem setMode_enable_sel (s : ComboState) (ctrl : List String) (name sel : String)
    (st : Nat) (mode : Mode) (og : El) (hst : ¬ st = 0)
    (hm : s.modes.find? (fun m => m.name == name) = some mode)
    (hsel : mode.selector = some sel)
    (hog : s.dropdownEls.find? (fun el => selMatches (some sel) el) = some og) :
    setModeIconAndOptgroup s ctrl name st
      = Except.ok { s with
          ctrlActive := objSet s.ctrlActive ctrl true,
          cursorProgress := true,
          dropdownEls := setDisplayAll (some sel) false
            (updateFirst (fun el => selMatches (some sel) el)
              (fun el => { el with label := relabel el.label mode.appendOptionsSum })
              s.dropdownEls) } := by
  have h1 : (st != 0) = true := by simp [bne_iff_ne, hst]
  simp [setModeIconAndOptgroup, hm, hsel, hog, hst, h1]

theorem setMode_enable_nosel (s : ComboState) (ctrl : List String) (name : String)
    (st : Nat) (mode : Mode) (hst : ¬ st = 0)
    (hm : s.modes.find? (fun m => m.name == name) = some mode)
    (hsel : mode.selector = none) :
    setModeIconAndOptgroup s ctrl name st
      = Except.ok { s with
          ctrlActive := objSet s.ctrlActive ctrl true,
          cursorProgress := true,
          dropdownEls := setDisplayAll none false s.dropdownEls } := by
  have h1 : (st != 0) = true := by simp [bne_iff_ne, hst]
  simp [setModeIconAndOptgroup, hm, hsel, hst, h1]

theorem setMode_displays (s : ComboState) (ctrl : List String) (name : String) (n : Nat)
    (mode : Mode)
    (hm : s.modes.find? (fun m => m.name == name) = some mode)
    (hog : ∀ sel, mode.selector = some sel → n ≠ 0 →
        (s.dropdownEls.find? (fun el => selMatches (some sel) el)).isSome = true) :
    ∃ r, setModeIconAndOptgroup s ctrl name n = Except.ok r
      ∧ matchedDisplays mode.selector r.dropdownEls
          = List.replicate (matchedDisplays mode.selector s.dropdownEls).length (n == 0)
      ∧ r.modes = s.modes ∧ r.menuModes = s.menuModes
      ∧ (∀ sel2, mode.selector = some sel2 →
          (r.dropdownEls.find? (fun el => selMatches (some sel2) el)).isSome
            = (s.dropdownEls.find? (fun el => selMatches (some sel2) el)).isSome) := by
  by_cases hn : n = 0
  · subst hn
    refine ⟨_, setMode_disable s ctrl name mode hm, ?_, rfl, rfl, ?_⟩
    · simp [matchedDisplays_setDisplayAll]
    · intro sel2 hsel2
      rw [hsel2]
      rw [find?_setDisplayAll sel2 (some sel2) true s.dropdownEls]
      cases s.dropdownEls.find? (fun el => selMatches (some sel2) el) <;> rfl
  · cases hsel : mode.selector with
    | none =>
        refine ⟨_, setMode_enable_nosel s ctrl name n mode hn hm hsel, ?_, rfl, rfl, ?_⟩
        · have hn2 : (n == 0) = false := by simp [hn]
          simp [hn2, matchedDisplays_setDisplayAll]
        · intro sel2 hsel2
          exact absurd hsel2 (by simp)
    | some sel =>
        have hfind := hog sel hsel hn
        rw [Option.isSome_iff_exists] at hfind
        obtain ⟨og, hogval⟩ := hfind
        refine ⟨_, setMode_enable_sel s ctrl name sel n mode og hn hm hsel hogval, ?_, rfl,
          rfl, ?_⟩
        · have hn2 : (n == 0) = false := by simp [hn]
          rw [matchedDisplays_setDisplayAll,
            matchedDisplays_updateFirst (some sel) (fun el => selMatches (some sel) el)
              (fun el => { el with label := relabel el.label mode.appendOptionsSum })
              (fun el => selMatches_label _ el _) (fun el => rfl) s.dropdownEls, hn2]
        · intro sel2 hsel2
          rw [Option.some_inj] at hsel2
          subst hsel2
          rw [find?_setDisplayAll sel (some sel) false,
            find?_updateFirst _ _ (fun el => selMatches_label (some sel) el _)]
          cases s.dropdownEls.find? (fun el => selMatches (some sel) el) <;> rfl

theorem onModeIconClick_eq (s : ComboState) (t : ClickTarget) (cn : String)
    (h1 : t.tagName = "SPAN")
    (h2 : t.classList.find? (fun c => strStartsWith c TOGGLE_MODE_PFX) = some cn) :
    onModeIconClick s t
      = setModeIconAndOptgroup
          { s with
            menuModes :=
              objSet s.menuModes (strDrop cn TOGGLE_MODE_PFX.length)
                ((objGet s.menuModes (strDrop cn TOGGLE_MODE_PFX.length)).getD 0 ^^^ 1) }
          t.classList (strDrop cn TOGGLE_MODE_PFX.length)
          ((objGet s.menuModes (strDrop cn TOGGLE_MODE_PFX.length)).getD 0 ^^^ 1) := by
  simp [onModeIconClick, h1, h2]

theorem setMode_ok_fields (s r : ComboState) (ctrl : List String) (name : String) (st : Nat)
    (h : setModeIconAndOptgroup s ctrl name st = Except.ok r) :
    r.transitioning = s.transitioning ∧ r.pendingToggle = s.pendingToggle
      ∧ r.hideOnTransitionEnd = s.hideOnTransitionEnd
      ∧ r.optionsVisible = s.optionsVisible := by
  simp only [setModeIconAndOptgroup] at h
  split at h
  all_goals split at h
  all_goals try split at h
  all_goals try split at h
  all_goals first
  | (injection h with h; subst h; exact ⟨rfl, rfl, rfl, rfl⟩)
  | simp at h

theorem toggle_defers (s : ComboState) (h : s.transitioning = true) :
    toggleDropDown s = { s with pendingToggle := true } := by
  simp [toggleDropDown, transitQuery, h]

theorem toggleDropDown_input (s : ComboState) :
    (toggleDropDown s).inputValue = s.inputValue
      ∧ (toggleDropDown s).inputSelectionStart = s.inputSelectionStart
      ∧ (toggleDropDown s).inputSelectionEnd = s.inputSelectionEnd := by
  unfold toggleDropDown transitQuery slideUp slideDown transitBegin
  by_cases h : s.transitioning <;> by_cases h2 : s.optionsVisible <;> simp [h, h2]

theorem toggle_preserves_pending (x : ComboState) (hx : x.transitioning = false) :
    (toggleDropDown x).pendingToggle = x.pendingToggle := by
  unfold toggleDropDown transitQuery slideUp slideDown transitBegin
  by_cases h2 : x.optionsVisible <;> simp [hx, h2]

theorem transitComplete_pending (x : ComboState) :
    (transitComplete x).pendingToggle = x.pendingToggle := by
  unfold transitComplete
  by_cases hh : x.hideOnTransitionEnd <;> simp [hh]

/-! ## Claim theorems -/

/-- C1: For the drop-down open/close toggle: a toggle requested while a slide
transition is in flight is deferred (only the lock's deferred flag changes),
an overlapping second request collapses into the same single deferred toggle
(last user action wins), when the in-flight transition completes the deferred
toggle is applied exactly once, the deferred flag is consumed so the toggle
cannot fire again, and a completed transition with no deferred request
applies no toggle at all (never zero, never twice). -/
theorem C1_deferred_toggle_exactly_once (s : ComboState) (h : s.transitioning = true) :
    toggleDropDown s = { s with pendingToggle := true }
      ∧ toggleDropDown (toggleDropDown s) = { s with pendingToggle := true }
      ∧ transitionEnd { s with pendingToggle := true }
          = toggleDropDown { transitComplete s with pendingToggle := false }
      ∧ (transitionEnd { s with pendingToggle := true }).pendingToggle = false
      ∧ (∀ s3 : ComboState, s3.transitioning = true → s3.pendingToggle = false →
          transitionEnd s3 = transitComplete s3) := by
  refine ⟨toggle_defers s h, ?_, ?_, ?_, ?_⟩
  · rw [toggle_defers s h]
    exact toggle_defers { s with pendingToggle := true } h
  · by_cases hh : s.hideOnTransitionEnd <;>
      simp [transitionEnd, transitComplete, h, hh]
  · by_cases hh : s.hideOnTransitionEnd <;>
      · simp [transitionEnd, transitComplete, h, hh]
        rw [toggle_preserves_pending _ rfl]
  · intro s3 h3 hp3
    simp [transitionEnd, h3, transitComplete_pending, hp3]

/-- C1 witness: evaluation of the deferred-toggle behavior on a concrete
in-flight state. -/
theorem C1_witness :
    toggleDropDown { baseState with transitioning := true }
        = { baseState with transitioning := true, pendingToggle := true }
      ∧ (transitionEnd
            { baseState with transitioning := true, pendingToggle := true }).pendingToggle
          = false :=
  ⟨(C1_deferred_toggle_exactly_once { baseState with transitioning := true } rfl).1,
   (C1_deferred_toggle_exactly_once { baseState with transitioning := true } rfl).2.2.2.1⟩

/-- C3: With no transition in flight, the drop-down follows the two-state
machine of stateToActionMap: a toggle in the hidden state performs exactly
the slide-down (after which the panel is visible) and a toggle in the
visible state performs exactly the slide-up (after whose completion the
panel is hidden); no other transition exists. -/
theorem C3_two_state_machine (s : ComboState) (h1 : s.transitioning = false)
    (h2 : s.pendingToggle = false) :
    (s.optionsVisible = false → toggleDropDown s = slideDown s
        ∧ (toggleDropDown s).optionsVisible = true)
      ∧ (s.optionsVisible = true → toggleDropDown s = slideUp s
        ∧ (transitionEnd (toggleDropDown s)).optionsVisible = false) := by
  constructor
  · intro hv
    constructor
    · simp [toggleDropDown, transitQuery, h1, hv]
    · simp [toggleDropDown, transitQuery, h1, hv, slideDown, transitBegin]
  · intro hv
    constructor
    · simp [toggleDropDown, transitQuery, h1, hv]
    · simp [toggleDropDown, transitQuery, h1, hv, slideUp, transitBegin, transitionEnd,
        transitComplete, h2]

/-- C3 witness: the hidden-state toggle on a concrete idle state slides
down. -/
theorem C3_witness :
    toggleDropDown baseState = slideDown baseState
      ∧ (toggleDropDown baseState).optionsVisible = true :=
  (C3_two_state_machine baseState rfl rfl).1 rfl

/-- C5 counterexample: the claim says a mode toggle triggers an asynchronous
slide transition coordinated through the transition-completion signal so that
rapid mode toggles cannot overlap.  On the code, clicking the alpha mode icon
while a slide transition is in flight succeeds immediately: the optgroup
display changes synchronously, no transition is started and nothing is
deferred (the transit lock fields are untouched), so mode toggles are not
coordinated with the transition signal at all. -/
theorem C5_counterexample :
    ∃ r, onModeIconClick { baseState with transitioning := true } clickAlpha = Except.ok r
      ∧ r.transitioning = true
      ∧ r.pendingToggle = false
      ∧ r.hideOnTransitionEnd = false
      ∧ matchedDisplays (some (".submenu-alpha")) r.dropdownEls
          ≠ matchedDisplays (some (".submenu-alpha")) baseState.dropdownEls :=
  ⟨_, rfl, rfl, rfl, rfl, by decide⟩

/-- C5 amended: clicking a mode toggle icon updates the mode's option group
synchronously and never touches the transition lock; it is the drop-down
open/close toggle, not the mode toggle, that is coordinated through the
transition-completion signal so that overlapping drop-down toggles collapse
into one deferred toggle. -/
theorem C5_amended_mode_toggle_is_sync :
    (∀ (s r : ComboState) (t : ClickTarget), onModeIconClick s t = Except.ok r →
        r.transitioning = s.transitioning ∧ r.pendingToggle = s.pendingToggle
          ∧ r.hideOnTransitionEnd = s.hideOnTransitionEnd)
      ∧ (∀ s : ComboState, s.transitioning = true →
          toggleDropDown s = { s with pendingToggle := true }) := by
  constructor
  · intro s r t h
    simp only [onModeIconClick] at h
    by_cases ht : t.tagName = "SPAN"
    · rw [if_pos ht] at h
      split at h
      · simp at h
      · have hf := setMode_ok_fields _ _ _ _ _ h
        exact ⟨hf.1, hf.2.1, hf.2.2.1⟩
    · rw [if_neg ht] at h
      injection h with h
      subst h
      exact ⟨rfl, rfl, rfl⟩
  · exact toggle_defers

/-- C5 amended witness: a concrete successful mode click leaves the lock
untouched, and a concrete in-flight drop-down toggle is deferred. -/
theorem C5_amended_witness :
    ∃ r, onModeIconClick baseState clickAlpha = Except.ok r
      ∧ r.transitioning = baseState.transitioning
      ∧ toggleDropDown { baseState with transitioning := true }
          = { baseState with transitioning := true, pendingToggle := true } :=
  ⟨_, rfl, (C5_amended_mode_toggle_is_sync.1 baseState _ clickAlpha rfl).1,
    C5_amended_mode_toggle_is_sync.2 { baseState with transitioning := true } rfl⟩

/-- C4 counterexample: the claim says a mode-icon click naming a mode with no
entry in this.modes is a silent no-op; on the code it throws a TypeError
(reading `.selector` of `undefined` at line 162), here surfaced as an
`Except.error`. -/
theorem C4_counterexample :
    onModeIconClick baseState { tagName := "SPAN", classList := ["toggle-mode-ghost"] }
      = Except.error ("TypeError: mode is undefined") := rfl

/-- C4 amended: a click whose target is not a SPAN is a no-op (no exception,
no state change); but a SPAN whose classList has no class beginning with
toggle-mode- raises a TypeError (undefined `.substr`, line 139), and a SPAN
naming a mode with no entry in this.modes raises a TypeError (undefined
`.selector`, lines 162/180) rather than silently doing nothing. -/
theorem C4_amended_click_errors :
    (∀ (s : ComboState) (t : ClickTarget), ¬ t.tagName = "SPAN" →
        onModeIconClick s t = Except.ok s)
      ∧ (∀ (s : ComboState) (t : ClickTarget), t.tagName = "SPAN" →
          t.classList.find? (fun c => strStartsWith c TOGGLE_MODE_PFX) = none →
          onModeIconClick s t = Except.error ("TypeError: modeClassName is undefined"))
      ∧ (∀ (s : ComboState) (t : ClickTarget) (cn : String), t.tagName = "SPAN" →
          t.classList.find? (fun c => strStartsWith c TOGGLE_MODE_PFX) = some cn →
          s.modes.find? (fun m => m.name == strDrop cn TOGGLE_MODE_PFX.length) = none →
          onModeIconClick s t = Except.error ("TypeError: mode is undefined")) := by
  refine ⟨?_, ?_, ?_⟩
  · intro s t ht
    simp [onModeIconClick, ht]
  · intro s t ht hf
    simp [onModeIconClick, ht, hf]
  · intro s t cn ht hf hm
    rw [onModeIconClick_eq s t cn ht hf]
    by_cases h0 : (objGet s.menuModes (strDrop cn TOGGLE_MODE_PFX.length)).getD 0 ^^^ 1 = 0 <;>
      simp [setModeIconAndOptgroup, hm, h0]

/-- C4 amended witness: the three behaviors at concrete inputs. -/
theorem C4_amended_witness :
    onModeIconClick baseState { tagName := "DIV", classList := [] } = Except.ok baseState
      ∧ onModeIconClick baseState { tagName := "SPAN", classList := ["foo"] }
          = Except.error ("TypeError: modeClassName is undefined")
      ∧ onModeIconClick baseState { tagName := "SPAN", classList := ["toggle-mode-zeta"] }
          = Except.error ("TypeError: mode is undefined") :=
  ⟨C4_amended_click_errors.1 baseState _ (by decide),
   C4_amended_click_errors.2.1 baseState _ rfl (by decide),
   C4_amended_click_errors.2.2 baseState _ ("toggle-mode-zeta") rfl (by decide) (by decide)⟩

/-- C6: For every keyup event delivered, after the superclass handling the
pending editor value is committed (saveEditorValue) and the editor is moved
if and only if the grid classifies the row as a filter row and
resolveProperty of filteringMode yields the string immediate; otherwise the
handler performs only the superclass keyup. -/
theorem C6_keyup_immediate_commit :
    (∀ (f : Bool) (m : String), f = true ∧ m = "immediate" →
        keyup true f m
          = [KeyupEffect.superKeyup, KeyupEffect.saveEditorValue, KeyupEffect.moveEditor])
      ∧ (∀ (f : Bool) (m : String), ¬ (f = true ∧ m = "immediate") →
          keyup true f m = [KeyupEffect.superKeyup])
      ∧ (∀ (f : Bool) (m : String),
          (KeyupEffect.saveEditorValue ∈ keyup true f m
            ∧ KeyupEffect.moveEditor ∈ keyup true f m)
            ↔ (f = true ∧ m = "immediate")) := by
  refine ⟨?_, ?_, ?_⟩
  · rintro f m ⟨hf, hm⟩
    simp [keyup, hf, hm]
  · intro f m h
    by_cases hf : f = true
    · have hm : ¬ m = "immediate" := fun hm => h ⟨hf, hm⟩
      simp [keyup, hf, hm]
    · simp [keyup, hf]
  · intro f m
    by_cases hf : f = true <;> by_cases hm : m = "immediate" <;>
      simp [keyup, hf, hm]

/-- C6 witness: both directions at concrete grid answers. -/
theorem C6_witness :
    keyup true true ("immediate")
        = [KeyupEffect.superKeyup, KeyupEffect.saveEditorValue, KeyupEffect.moveEditor]
      ∧ keyup true true ("onCommit") = [KeyupEffect.superKeyup]
      ∧ keyup true false ("immediate") = [KeyupEffect.superKeyup] :=
  ⟨C6_keyup_immediate_commit.1 true ("immediate") ⟨rfl, rfl⟩,
   C6_keyup_immediate_commit.2.1 true ("onCommit") (by simp),
   C6_keyup_immediate_commit.2.1 false ("immediate") (by simp)⟩

/-- C7: Closing the editor while the drop-down is open releases every
listener the editor added while open: the mousedown listener that slideDown
registers on the text input (which slideDown indeed registers) and the click
listener showEditor put on the control area are both gone after hideEditor.
(`Simple.prototype.hideEditor` is spec-modelled; see `simpleHideEditor`.) -/
theorem C7_hideEditor_releases_listeners (s : ComboState)
    (_h1 : s.optionsVisible = true) (_h2 : s.inputMousedownListener = true) :
    (hideEditor s).inputMousedownListener = false
      ∧ (hideEditor s).controlsClickListener = false
      ∧ (∀ s2 : ComboState, (slideDown s2).inputMousedownListener = true) :=
  ⟨rfl, rfl, fun _ => rfl⟩

/-- C7 witness: evaluation on a concrete open-drop-down state. -/
theorem C7_witness :
    (hideEditor openState).inputMousedownListener = false
      ∧ (hideEditor openState).controlsClickListener = false :=
  ⟨(C7_hideEditor_releases_listeners openState rfl rfl).1,
   (C7_hideEditor_releases_listeners openState rfl rfl).2.1⟩

theorem any_eq_of_mem {α : Type} (l : List α) (p q : α → Bool)
    (h : ∀ x ∈ l, p x = q x) : l.any p = l.any q := by
  induction l with
  | nil => rfl
  | cons x rest ih =>
      rw [List.any_cons, List.any_cons, h x (List.mem_cons_self x rest),
        ih (fun y hy => h y (List.mem_cons_of_mem x hy))]

theorem buildProxy_get (modes : List Mode) (src : List (String × Nat)) (k : String) :
    objGet (buildProxy modes src) k
      = if modes.any (fun m => m.name == k) = true then objGet src k else none := by
  have main : ∀ acc : List (String × Nat),
      objGet (modes.foldl
          (fun acc mode =>
            match objGet src mode.name with
            | some v => objSet acc mode.name v
            | none => acc)
          acc) k
        = if modes.any (fun m => m.name == k && (objGet src m.name).isSome) = true
          then objGet src k else objGet acc k := by
    induction modes with
    | nil => intro acc; simp
    | cons m rest ih =>
        intro acc
        rw [List.foldl_cons, List.any_cons]
        cases hs : objGet src m.name with
        | none =>
            simp only [Option.isSome_none, Bool.and_false, Bool.false_or]
            exact ih acc
        | some v =>
            by_cases hmk : m.name = k
            · have hsk : objGet src k = some v := hmk ▸ hs
              rw [show (match some v with
                  | some v => objSet acc m.name v
                  | none => acc) = objSet acc m.name v from rfl,
                ih (objSet acc m.name v), objGet_objSet]
              simp [hmk, hsk]
            · rw [show (match some v with
                  | some v => objSet acc m.name v
                  | none => acc) = objSet acc m.name v from rfl,
                ih (objSet acc m.name v), objGet_objSet]
              simp [hmk]
  rw [buildProxy, main []]
  cases hsk : objGet src k with
  | some v =>
      have hcong : modes.any (fun m => m.name == k && (objGet src m.name).isSome)
          = modes.any (fun m => m.name == k) := by
        apply any_eq_of_mem
        intro m _
        by_cases hmk : m.name = k
        · simp [hmk, hsk]
        · simp [hmk]
      rw [hcong]
      split <;> simp [objGet]
  | none =>
      split <;> split <;> simp [hsk, objGet]

/-- C8: showEditor builds this.menuModes as exactly the restriction of
this.menuModesSource to the names in this.modes: a key that is some mode's
name maps to the source's value (so in particular every mode name that is a
source key keeps the source's value), any other key is absent, and
menuModesSource itself is left unchanged. -/
theorem C8_showEditor_builds_proxy (s : ComboState) (k : String) :
    objGet (showEditorBuildMenuModes s).menuModes k
        = (if s.modes.any (fun m => m.name == k) = true
           then objGet s.menuModesSource k else none)
      ∧ (showEditorBuildMenuModes s).menuModesSource = s.menuModesSource :=
  ⟨buildProxy_get s.modes s.menuModesSource k, rfl⟩

/-- C10: When a drop-down item is chosen, insertText splices the selected
drop-down value into the text input over the selection range that slideDown
captured when the drop-down opened (slideDown indeed saves the live
selection), leaves the caret (both selection ends) at the end of the
inserted text, and then requests the drop-down toggle — which, with the
drop-down visible and no transition in flight, is the slide-up close. -/
theorem C10_insertText_splices_and_closes (s : ComboState)
    (h1 : s.transitioning = false) (h2 : s.optionsVisible = true) :
    (slideDown s).savedSelectionStart = s.inputSelectionStart
      ∧ (slideDown s).savedSelectionEnd = s.inputSelectionEnd
      ∧ (insertText s).inputValue
          = s.inputValue.take (min s.savedSelectionStart s.inputValue.length)
            ++ s.dropdownValue
            ++ s.inputValue.drop (min s.savedSelectionEnd s.inputValue.length)
      ∧ (insertText s).inputSelectionStart
          = min s.savedSelectionStart s.inputValue.length + s.dropdownValue.length
      ∧ (insertText s).inputSelectionEnd = (insertText s).inputSelectionStart
      ∧ insertText s
          = toggleDropDown { s with
              inputValue := (setRangeTextEnd s.inputValue s.dropdownValue
                s.savedSelectionStart s.savedSelectionEnd).1,
              inputSelectionStart := (setRangeTextEnd s.inputValue s.dropdownValue
                s.savedSelectionStart s.savedSelectionEnd).2,
              inputSelectionEnd := (setRangeTextEnd s.inputValue s.dropdownValue
                s.savedSelectionStart s.savedSelectionEnd).2 }
      ∧ insertText s
          = slideUp { s with
              inputValue := (setRangeTextEnd s.inputValue s.dropdownValue
                s.savedSelectionStart s.savedSelectionEnd).1,
              inputSelectionStart := (setRangeTextEnd s.inputValue s.dropdownValue
                s.savedSelectionStart s.savedSelectionEnd).2,
              inputSelectionEnd := (setRangeTextEnd s.inputValue s.dropdownValue
                s.savedSelectionStart s.savedSelectionEnd).2 } := by
  refine ⟨rfl, rfl, (toggleDropDown_input _).1, (toggleDropDown_input _).2.1, ?_, rfl, ?_⟩
  · simp only [insertText]
    rw [(toggleDropDown_input _).2.2, (toggleDropDown_input _).2.1]
  · simp [insertText, toggleDropDown, transitQuery, h1, h2]

/-- C10 witness: a concrete selection replacement: value abcde with saved
range 1..3 and drop-down value Val becomes aValde with the caret after the
insertion, and the close toggle is the slide-up. -/
theorem C10_witness :
    (insertText openState).inputValue = "aValde".toList
      ∧ (insertText openState).inputSelectionStart = 4
      ∧ (insertText openState).transitioning = true := by
  refine ⟨?_, ?_, ?_⟩
  · rw [(C10_insertText_splices_and_closes openState rfl rfl).2.2.1]
    decide
  · rw [(C10_insertText_splices_and_closes openState rfl rfl).2.2.2.1]
    decide
  · rw [(C10_insertText_splices_and_closes openState rfl rfl).2.2.2.2.2.2]
    decide

/-- C9: Each time a mode with a selector is enabled, setModeIconAndOptgroup
first strips any existing count suffix from the optgroup label and then
appends the new count (the optgroup ends up labelled
`relabel old appendOptionsSum`), and the relabel operation absorbs previous
applications — re-enabling any number of times leaves exactly one count
suffix on the label. -/
theorem C9_label_exactly_one_suffix (s : ComboState) (ctrl : List String) (name sel : String)
    (st : Nat) (mode : Mode) (og : El)
    (hst : ¬ st = 0)
    (hm : s.modes.find? (fun m => m.name == name) = some mode)
    (hsel : mode.selector = some sel)
    (hog : s.dropdownEls.find? (fun el => selMatches (some sel) el) = some og) :
    (∃ s2, setModeIconAndOptgroup s ctrl name st = Except.ok s2
      ∧ s2.dropdownEls.find? (fun el => selMatches (some sel) el)
          = some
              { og with
                label := relabel og.label mode.appendOptionsSum,
                displayNone := false })
      ∧ (∀ l n1 n2, relabel (relabel l n1) n2 = relabel l n2)
      ∧ (∀ l n1, stripCountSuffix (relabel l n1) = stripCountSuffix l) := by
  refine ⟨⟨_, setMode_enable_sel s ctrl name sel st mode og hst hm hsel hog, ?_⟩,
    relabel_relabel, stripCountSuffix_relabel⟩
  have hmatch : selMatches (some sel) og = true := List.find?_some hog
  dsimp only
  rw [find?_setDisplayAll, find?_updateFirst (fun el => selMatches (some sel) el)
      (fun el => { el with label := relabel el.label mode.appendOptionsSum })
      (fun el => selMatches_label _ el _), hog]
  simp [selMatches_label, hmatch]

/-- C9 witness: enabling the concrete alpha mode relabels its optgroup from
List to List (7) and shows it. -/
theorem C9_witness :
    ∃ s2, setModeIconAndOptgroup baseState ["toggle-mode-alpha"] ("alpha") 1 = Except.ok s2
      ∧ s2.dropdownEls.find? (fun el => selMatches (some (".submenu-alpha")) el)
          = some
              { isOptgroup := true, className := some ("submenu-alpha"),
                label := "List (7)".toList, displayNone := false } := by
  obtain ⟨⟨s2, hok, hfind⟩, -, -⟩ :=
    C9_label_exactly_one_suffix baseState ["toggle-mode-alpha"] ("alpha") (".submenu-alpha") 1
      { name := "alpha", selector := some (".submenu-alpha"), appendOptionsSum := 7 }
      { isOptgroup := true, className := some ("submenu-alpha"),
        label := "List".toList, displayNone := true }
      (by decide) (by decide) rfl (by decide)
  refine ⟨s2, hok, ?_⟩
  rw [hfind]
  decide

/-- C2: Two successive clicks on a mode's toggle control (same SPAN target,
nothing in between) both succeed and return the display states of the
elements matched by the mode's selector to what they were before the first
click.  Hypotheses: the target is the mode's toggle SPAN, the mode is in
this.modes, a matching optgroup exists when the mode has a selector, and the
pre-state displays agree with the mode's recorded state (the invariant
showEditor establishes). -/
theorem C2_double_mode_toggle (s : ComboState) (t : ClickTarget) (cn name : String)
    (mode : Mode)
    (h1 : t.tagName = "SPAN")
    (h2 : t.classList.find? (fun c => strStartsWith c TOGGLE_MODE_PFX) = some cn)
    (h3 : strDrop cn TOGGLE_MODE_PFX.length = name)
    (h4 : s.modes.find? (fun m => m.name == name) = some mode)
    (h5 : ∀ sel, mode.selector = some sel →
        (s.dropdownEls.find? (fun el => selMatches (some sel) el)).isSome = true)
    (h6 : ∀ b ∈ matchedDisplays mode.selector s.dropdownEls,
        b = ((objGet s.menuModes name).getD 0 == 0)) :
    ∃ s1 s2, onModeIconClick s t = Except.ok s1 ∧ onModeIconClick s1 t = Except.ok s2
      ∧ matchedDisplays mode.selector s2.dropdownEls
          = matchedDisplays mode.selector s.dropdownEls := by
  have hclick1 := onModeIconClick_eq s t cn h1 h2
  rw [h3] at hclick1
  obtain ⟨r1, hr1, hd1, hmodes1, hmenu1, hpres1⟩ :=
    setMode_displays
      { s with
        menuModes := objSet s.menuModes name ((objGet s.menuModes name).getD 0 ^^^ 1) }
      t.classList name ((objGet s.menuModes name).getD 0 ^^^ 1) mode h4
      (fun sel hsel _ => h5 sel hsel)
  have hstep1 : onModeIconClick s t = Except.ok r1 := hclick1.trans hr1
  have hget : objGet r1.menuModes name
      = some ((objGet s.menuModes name).getD 0 ^^^ 1) := by
    have hmenu1' : r1.menuModes
        = objSet s.menuModes name ((objGet s.menuModes name).getD 0 ^^^ 1) := hmenu1
    rw [hmenu1', objGet_objSet]
    simp
  have hxor : (objGet r1.menuModes name).getD 0 ^^^ 1 = (objGet s.menuModes name).getD 0 := by
    rw [hget, Option.getD_some, Nat.xor_assoc, Nat.xor_self, Nat.xor_zero]
  have hm2 : r1.modes.find? (fun m => m.name == name) = some mode := by
    have hmodes1' : r1.modes = s.modes := hmodes1
    rw [hmodes1']
    exact h4
  have hog2 : ∀ sel, mode.selector = some sel →
      (r1.dropdownEls.find? (fun el => selMatches (some sel) el)).isSome = true := by
    intro sel hsel
    have hpres1' : (r1.dropdownEls.find? (fun el => selMatches (some sel) el)).isSome
        = (s.dropdownEls.find? (fun el => selMatches (some sel) el)).isSome :=
      hpres1 sel hsel
    rw [hpres1']
    exact h5 sel hsel
  have hclick2 := onModeIconClick_eq r1 t cn h1 h2
  rw [h3] at hclick2
  obtain ⟨r2, hr2, hd2, hmodes2, hmenu2, hpres2⟩ :=
    setMode_displays
      { r1 with
        menuModes := objSet r1.menuModes name ((objGet r1.menuModes name).getD 0 ^^^ 1) }
      t.classList name ((objGet r1.menuModes name).getD 0 ^^^ 1) mode hm2
      (fun sel hsel _ => hog2 sel hsel)
  have hstep2 : onModeIconClick r1 t = Except.ok r2 := hclick2.trans hr2
  refine ⟨r1, r2, hstep1, hstep2, ?_⟩
  have hMs : matchedDisplays mode.selector s.dropdownEls
      = List.replicate (matchedDisplays mode.selector s.dropdownEls).length
          ((objGet s.menuModes name).getD 0 == 0) :=
    List.eq_replicate_length.mpr h6
  have hlen : (matchedDisplays mode.selector r1.dropdownEls).length
      = (matchedDisplays mode.selector s.dropdownEls).length := by
    have hd1' : matchedDisplays mode.selector r1.dropdownEls
        = List.replicate (matchedDisplays mode.selector s.dropdownEls).length
            (((objGet s.menuModes name).getD 0 ^^^ 1) == 0) := hd1
    rw [hd1', List.length_replicate]
  have hd2' : matchedDisplays mode.selector r2.dropdownEls
      = List.replicate (matchedDisplays mode.selector r1.dropdownEls).length
          (((objGet r1.menuModes name).getD 0 ^^^ 1) == 0) := hd2
  rw [hd2', hxor, hlen, ← hMs]

/-- C2 witness: double-clicking the concrete alpha toggle restores the
optgroup's display state. -/
theorem C2_witness :
    ∃ s1 s2, onModeIconClick baseState clickAlpha = Except.ok s1
      ∧ onModeIconClick s1 clickAlpha = Except.ok s2
      ∧ matchedDisplays (some (".submenu-alpha")) s2.dropdownEls
          = matchedDisplays (some (".submenu-alpha")) baseState.dropdownEls :=
  C2_double_mode_toggle baseState clickAlpha ("toggle-mode-alpha") ("alpha")
    { name := "alpha", selector := some (".submenu-alpha"), appendOptionsSum := 7 }
    rfl (by decide) (by decide) (by decide)
    (fun sel hsel => by
      simp only [Option.some.injEq] at hsel
      subst hsel
      decide)
    (by decide)
